import Mathlib

/-!
Verification of the Fabric CLI asset-transfer reclaim command
(`samples/fabric/fabric-cli/src/commands/asset/transfer/reclaim.ts`).

The TypeScript command is embedded shallowly:

* `getReclaimViewAddress` (lines 242-265 of the source) becomes a pure Lean
  function returning the produced address (`Option String`, `none` when the
  process exits) together with the list of observable effects it performs.
* `command.run` (lines 33-238) becomes `run`, a function from the command's
  option values and a record of the results supplied by its external
  collaborators (network configuration lookup, wallet, local pledge-details
  query, key/cert retrieval, interop SDK) to the sequence of observable
  effects the command performs, in order.
* JavaScript's `String.prototype.split` with a one-character separator is
  modelled by `jsSplit`, and `parseInt` by `parseIntJS`.

Effects are represented explicitly so that statements such as "the relay is
never contacted" or "the process terminates" are statements about the trace.
-/

namespace Reclaim

/-- Result of `getNetworkConfig(networkName)` (a helper outside this command's
file): the per-network connection settings read from configuration. A missing
setting is modelled as the empty string, matching JavaScript falsiness of
`undefined`/`""` in the checks the command performs on these fields. -/
structure NetworkConfig where
  relayEndpoint : String
  connProfilePath : String
  channelName : String
  chaincode : String
  mspId : String
deriving Repr, DecidableEq

/-- Local pledge record details returned by `getLocalAssetPledgeDetails`
(the command reads its `getRecipient()`, `getRemotenetworkid()` and
`getExpirytimesecs()` accessors; the expiry is carried as the string it is
rendered to when concatenated into the address). -/
structure PledgeDetails where
  recipient : String
  remoteNetworkId : String
  expiryTimeSecs : String
deriving Repr, DecidableEq

/-- Command-line option values of the reclaim command. Absent string options
are the empty string (JavaScript `undefined` is falsy exactly like `""` in
every check the command performs). `help` covers `options.help || options.h`.
`destNetwork` records the value of `options['dest-network']`, which the
command never declares but reads once inside an error message. -/
structure Options where
  help : Bool
  debug : String
  sourceNetwork : String
  user : String
  type : String
  pledgeId : String
  param : String
  relayTls : String
  relayTlsCAFiles : String
  destNetwork : String
deriving Repr, DecidableEq

/-- Results supplied by the command's external collaborators (configuration
files, environment, wallet, local ledger query, interop SDK), passed in so
that `run` is a function of them. -/
structure ExternalWorld where
  cfg : String → NetworkConfig
  envDefaultChaincode : String
  userCert : String
  pledge : PledgeDetails
  keyCertOk : Bool
  keyCertErrMsg : String
  flowOk : Bool

/-- Observable effects of one invocation of the command, in program order. -/
inductive Effect where
  | showHelp
  | debugLog (msg : String)
  | printErr (msg : String)
  | consoleLog (msg : String)
  | walletAccess (user : String)
  | pledgeLookup (network pledgeId caller ccType : String)
  | keyCertFetch (user : String)
  | spinStart
  | logInvokeObject (channel ccFunc : String) (ccArgs : List String) (contractName : String)
  | interopFlow (relayEndpoint viewAddress channel ccFunc : String)
      (ccArgs : List String) (contractName : String) (signRequired : Bool)
  | spinSucceed
  | spinFail
  | loggerError
  | loggerInfo
  | processExit (code : Nat)
deriving Repr, DecidableEq

/-- An effect that goes out to the relay or submits a transaction to the
local ledger. Both happen only inside `InteroperableHelper.interopFlow`,
which performs the remote view fetch through the relay and then the local
chaincode invocation; every other effect is console output, wallet/file
access or the read-only local pledge-details query. -/
def Effect.isNetworkCall : Effect → Bool
  | .interopFlow .. => true
  | _ => false

/-- An effect that touches anything outside the process: wallet access, the
local pledge-details query, key/cert retrieval, or the interop flow (relay
plus local ledger). Console output and process exit are not I/O here. -/
def Effect.isExternalAccess : Effect → Bool
  | .walletAccess _ => true
  | .pledgeLookup .. => true
  | .keyCertFetch _ => true
  | .interopFlow .. => true
  | _ => false

/-- Models JavaScript `s.split(sep)` for a one-character separator `sep`:
`"a:b:c".split(':') = ["a","b","c"]`, `"".split(':') = [""]`,
`"a:".split(':') = ["a",""]`. -/
def jsSplit (sep : Char) (s : String) : List String :=
  (s.data.splitOn sep).map (fun cs => String.mk cs)

/-- Models JavaScript `parseInt(s)` (default radix 10, no hex prefix in the
inputs of interest): leading whitespace is skipped, an optional sign is read,
then the longest leading run of decimal digits; the result is `NaN` (here
`none`) when that run is empty. -/
def parseIntJS (s : String) : Option Int :=
  let chars := s.data.dropWhile (fun c => c = ' ')
  match chars with
  | [] => none
  | c :: rest =>
    let neg : Bool := c = '-'
    let digits := if c = '-' ∨ c = '+' then rest else c :: rest
    let ds := digits.takeWhile Char.isDigit
    if ds.isEmpty then none
    else
      let n : Nat := ds.foldl (fun acc d => acc * 10 + (d.toNat - '0'.toNat)) 0
      some (if neg then -(n : Int) else (n : Int))

/-- A destination or source network configuration is usable when the three
fields the command checks (`connProfilePath`, `channelName`, `chaincode`)
are all present (truthy). -/
def NetworkConfig.resolvable (c : NetworkConfig) : Prop :=
  c.connProfilePath ≠ "" ∧ c.channelName ≠ "" ∧ c.chaincode ≠ ""

instance (c : NetworkConfig) : Decidable c.resolvable := by
  unfold NetworkConfig.resolvable; infer_instance

/-- Embedding of `getReclaimViewAddress` (reclaim.ts lines 242-265).
Returns the address produced (`none` when the unrecognized-category branch
calls `process.exit(1)` and no address is returned) together with the
effects performed. On an unresolvable destination configuration it returns
the empty string, as the source does. -/
def getReclaimViewAddress (cfg : String → NetworkConfig)
    (assetCategory assetType assetIdOrQuantity pledgeId pledgerCert sourceNetwork
      recipientCert destNetwork pledgeExpiryTimeSecs : String) :
    Option String × List Effect :=
  let destNetConfig := cfg destNetwork
  if destNetConfig.connProfilePath = "" ∨ destNetConfig.channelName = "" ∨
      destNetConfig.chaincode = "" then
    (some "", [])
  else
    let address := destNetConfig.relayEndpoint ++ "/" ++ destNetwork ++ "/" ++
      destNetConfig.channelName ++ ":" ++ destNetConfig.chaincode ++ ":"
    if assetCategory = "bond" then
      (some (address ++ "GetAssetClaimStatus" ++ ":" ++ pledgeId ++ ":" ++ assetType ++ ":" ++
        assetIdOrQuantity ++ ":" ++ recipientCert ++ ":" ++ pledgerCert ++ ":" ++
        sourceNetwork ++ ":" ++ pledgeExpiryTimeSecs), [])
    else if assetCategory = "token" then
      (some (address ++ "GetTokenAssetClaimStatus" ++ ":" ++ pledgeId ++ ":" ++ assetType ++ ":" ++
        assetIdOrQuantity ++ ":" ++ recipientCert ++ ":" ++ pledgerCert ++ ":" ++
        sourceNetwork ++ ":" ++ pledgeExpiryTimeSecs), [])
    else
      (none, [Effect.consoleLog ("Unecognized asset category: " ++ assetCategory),
              Effect.processExit 1])

/-- First segment of `--param` (`params[0]` after `options['param'].split(':')`). -/
def assetTypeOf (param : String) : String :=
  (jsSplit ':' param).headD ""

/-- Second segment of `--param` (`params[1]`); a missing segment (JavaScript
`undefined`) is modelled as `""`, which is falsy exactly like `undefined` in
the checks performed on it. -/
def param1Of (param : String) : String :=
  ((jsSplit ':' param)[1]?).getD ""

/-- The `assetIdOrQuantity` value of reclaim.ts line 135: for category
`token` the result of `parseInt` rendered back to its decimal string (the
value is only ever concatenated into the view address), otherwise the raw
second parameter segment. The `none` branch is unreachable from `run`, which
rejects non-numeric token quantities first. -/
def assetIdOrQuantityOf (category param : String) : String :=
  if category = "token" then
    match parseIntJS (param1Of param) with
    | some n => toString n
    | none => ""
  else param1Of param

/-- The view address construction exactly as `run` performs it (reclaim.ts
lines 172-175): category and pledge id from the command line, pledger
certificate from the wallet, and recipient, destination network and expiry
from the locally fetched pledge record. -/
def reclaimViewAddressResult (ext : ExternalWorld) (opts : Options) :
    Option String × List Effect :=
  getReclaimViewAddress ext.cfg opts.type (assetTypeOf opts.param)
    (assetIdOrQuantityOf opts.type opts.param) opts.pledgeId ext.userCert
    opts.sourceNetwork ext.pledge.recipient ext.pledge.remoteNetworkId
    ext.pledge.expiryTimeSecs

/-- The local invocation arguments of reclaim.ts line 194: pledge id from the
command line, recipient and remote network id from the pledge record, and an
empty placeholder slot for the claim-status view payload. -/
def reclaimCcArgs (ext : ExternalWorld) (opts : Options) : List String :=
  [opts.pledgeId, ext.pledge.recipient, ext.pledge.remoteNetworkId, ""]

/-- Embedding of reclaim.ts lines 137-238: the part of `command.run` from the
source-network configuration check onward, after `--param` has been split
into `assetType` and `assetIdOrQuantity`. -/
def runMain (ext : ExternalWorld) (opts : Options)
    (assetType assetIdOrQuantity : String) : List Effect :=
  let netConfig := ext.cfg opts.sourceNetwork
  if netConfig.connProfilePath = "" ∨ netConfig.channelName = "" ∨
      netConfig.chaincode = "" then
    [Effect.printErr ("Please use a valid --source-network. No valid environment found for " ++
      opts.sourceNetwork ++ " ")]
  else
    let channel := netConfig.channelName
    let r := getReclaimViewAddress ext.cfg opts.type assetType assetIdOrQuantity
      opts.pledgeId ext.userCert opts.sourceNetwork ext.pledge.recipient
      ext.pledge.remoteNetworkId ext.pledge.expiryTimeSecs
    Effect.walletAccess opts.user ::
    Effect.pledgeLookup opts.sourceNetwork opts.pledgeId opts.user opts.type ::
    (r.2 ++
      match r.1 with
      | none => []
      | some viewAddress =>
        if viewAddress = "" then
          [Effect.printErr ("Please use a valid --dest-network. No valid environment found for " ++
            opts.destNetwork ++ " ")]
        else
          Effect.keyCertFetch opts.user ::
          (if ext.keyCertOk = false then
            [Effect.printErr ("Error getting key and cert " ++ ext.keyCertErrMsg)]
          else
            let appChaincodeId := netConfig.chaincode
            let applicationFunction :=
              if opts.type = "token" then "ReclaimTokenAsset" else "ReclaimAsset"
            let args := reclaimCcArgs ext opts
            Effect.spinStart ::
            Effect.logInvokeObject channel applicationFunction args appChaincodeId ::
            Effect.interopFlow netConfig.relayEndpoint viewAddress channel
              applicationFunction args appChaincodeId true ::
            ((if ext.flowOk then [Effect.loggerInfo, Effect.spinSucceed]
              else [Effect.spinFail, Effect.loggerError]) ++
             [Effect.processExit 0])))

/-- Embedding of `command.run` (reclaim.ts lines 33-238): help short-circuit,
debug logging, the four required-option checks, the `--param` splitting and
validation (including the two textually distinct but identically guarded
missing-second-segment checks of lines 119-128 and the token integer check of
lines 129-133), then `runMain`. -/
def run (ext : ExternalWorld) (opts : Options) : List Effect :=
  if opts.help then [Effect.showHelp]
  else
    (if opts.debug = "true" then [Effect.debugLog "Debugging is enabled"] else []) ++
    (if opts.sourceNetwork = "" then [Effect.printErr "--source-network needs to be specified"]
     else if opts.user = "" then [Effect.printErr "--user needs to be specified"]
     else if opts.type = "" then [Effect.printErr "--type of network needs to be specified"]
     else if opts.param = "" then [Effect.printErr "--param needs to be specified"]
     else if opts.type ≠ "" ∧ param1Of opts.param = "" then
       [Effect.printErr "assetId needs to be specified for \"bond\" type"]
     else if opts.type ≠ "" ∧ param1Of opts.param = "" then
       [Effect.printErr "num of units needs to be specified for \"token\" type"]
     else if opts.type = "token" ∧ parseIntJS (param1Of opts.param) = none then
       [Effect.printErr "num of units must be an integer for \"token\" type"]
     else
       runMain ext opts (assetTypeOf opts.param) (assetIdOrQuantityOf opts.type opts.param))

/-- The option names the command declares in its help text (reclaim.ts
lines 44-83). -/
def declaredOptionNames : List String :=
  ["--debug", "--source-network", "--user", "--type", "--pledge-id", "--param",
   "--relay-tls", "--relay-tls-ca-files"]

/-- The claim-status chaincode function selected for a recognized asset
category (meaningful for `"bond"` and `"token"` only; used in theorem
statements under that hypothesis). -/
def claimStatusFn (category : String) : String :=
  if category = "token" then "GetTokenAssetClaimStatus" else "GetAssetClaimStatus"

end Reclaim

namespace Reclaim

/-- Sample network configuration environment used in concrete witnesses:
`network1` and `network2` resolve, everything else does not. -/
def cfgSample : String → NetworkConfig := fun n =>
  if n = "network1" then ⟨"relay1", "conn1", "mychannel", "simpleasset", "Org1MSP"⟩
  else if n = "network2" then ⟨"relay2", "conn2", "mychannel2", "simpleassettransfer", "Org2MSP"⟩
  else ⟨"", "", "", "", ""⟩

/-- Sample external-collaborator results used in concrete witnesses. -/
def extSample : ExternalWorld :=
  { cfg := cfgSample, envDefaultChaincode := "", userCert := "CERTA",
    pledge := ⟨"CERTR", "network2", "90000"⟩,
    keyCertOk := true, keyCertErrMsg := "", flowOk := true }

/-- Sample option values used in concrete witnesses. -/
def optsSample : Options :=
  { help := false, debug := "", sourceNetwork := "network1", user := "alice", type := "token",
    pledgeId := "pid1", param := "token1:50", relayTls := "", relayTlsCAFiles := "",
    destNetwork := "" }

/-- The structured fields of a claim-status view address, as enumerated by
the spec's `RemoteViewAddress` data model: relay endpoint, network and
channel, then contract, function and the seven positional arguments the
reclaim builder emits. -/
structure ReclaimAddressFields where
  relayEndpoint : String
  network : String
  channelName : String
  chaincode : String
  ccFunc : String
  pledgeId : String
  assetType : String
  assetIdOrQuantity : String
  recipientCert : String
  pledgerCert : String
  sourceNetwork : String
  expiryTimeSecs : String
deriving Repr, DecidableEq

/-- Modelled from the spec: the source under verification contains only the
build direction of the AddressCodec; the inverse parser promised by the spec
("deterministic, round-trippable construction ... and the inverse") is not
part of this file's source. Following the spec's bit-exact format
`<relayEndpoint>/<network>/<channel>:<contract>:<function>:<arg1>:...:<argN>`,
the parser takes the two slash-delimited leading segments and then the
colon-delimited remainder with the seven positional arguments of the
claim-status query. -/
def parseReclaimViewAddress (s : String) : Option ReclaimAddressFields :=
  match jsSplit '/' s with
  | [relayEndpoint, network, rest] =>
    match jsSplit ':' rest with
    | [channelName, chaincode, ccFunc, pledgeId, assetType, assetIdOrQuantity,
       recipientCert, pledgerCert, sourceNetwork, expiryTimeSecs] =>
      some ⟨relayEndpoint, network, channelName, chaincode, ccFunc, pledgeId, assetType,
        assetIdOrQuantity, recipientCert, pledgerCert, sourceNetwork, expiryTimeSecs⟩
    | _ => none
  | _ => none

/-- A field value is well formed for the address scheme when it contains
neither of the scheme's delimiter characters (the colon separating fields
and the slash separating the prefix segments). -/
def delimFree (s : String) : Prop := ':' ∉ s.data ∧ '/' ∉ s.data

instance (s : String) : Decidable (delimFree s) := by
  unfold delimFree; infer_instance

/-- Sample external world whose pledge record names a destination network
with no configuration. -/
def extBadDest : ExternalWorld :=
  { extSample with pledge := ⟨"CERTR", "network3", "90000"⟩ }

end Reclaim

namespace Reclaim

lemma string_ne_of_head {a b : String} (h : a.data.head? ≠ b.data.head?) : a ≠ b :=
  fun he => h (by rw [he])

lemma head_data_append (p x : String) (hp : p.data ≠ []) :
    (p ++ x).data.head? = p.data.head? := by
  obtain ⟨c, cs, hcc⟩ := List.exists_cons_of_ne_nil hp
  rw [String.data_append, hcc]
  simp

lemma data_append_ne_nil_left (p x : String) (hp : p.data ≠ []) :
    (p ++ x).data ≠ [] := by
  rw [String.data_append]
  simp [hp]

lemma ne_empty_of_mem {c : Char} {s : String} (h : c ∈ s.data) : s ≠ "" := by
  intro he
  subst he
  simp at h

lemma builder_cases (cfg : String → NetworkConfig)
    (a b c d e f g h i : String) :
    (∃ s, getReclaimViewAddress cfg a b c d e f g h i = (some s, [])) ∨
    (∃ m, getReclaimViewAddress cfg a b c d e f g h i =
      (none, [Effect.consoleLog m, Effect.processExit 1])) := by
  simp only [getReclaimViewAddress]
  split_ifs
  · exact Or.inl ⟨_, rfl⟩
  · exact Or.inl ⟨_, rfl⟩
  · exact Or.inl ⟨_, rfl⟩
  · exact Or.inr ⟨_, rfl⟩

lemma data_slash : ("/" : String).data = ['/'] := rfl

lemma data_colon : (":" : String).data = [':'] := rfl

lemma mk_data (s : String) : String.mk s.data = s := rfl

lemma data_mk (l : List Char) : (String.mk l).data = l := rfl

lemma splitOn_sep {α : Type} [DecidableEq α] (x : α) (a tail : List α) (h : x ∉ a) :
    (a ++ x :: tail).splitOn x = a :: tail.splitOn x := by
  simp only [List.splitOn]
  exact List.splitOnP_first (· == x) a
    (fun y hy => by simp [show y ≠ x from fun e => h (e ▸ hy)]) x (by simp) tail

lemma splitOn_single {α : Type} [DecidableEq α] (x : α) (a : List α) (h : x ∉ a) :
    a.splitOn x = [a] := by
  simp only [List.splitOn]
  exact List.splitOnP_eq_single (· == x) a
    (fun y hy => by simp [show y ≠ x from fun e => h (e ▸ hy)])

lemma token_needs_msg_ne (lit rest : String) (hne : lit.data ≠ [])
    (hh : lit.data.head? ≠ some 'n') :
    ("num of units needs to be specified for \"token\" type" : String) ≠ lit ++ rest := by
  apply string_ne_of_head
  rw [head_data_append lit rest hne]
  intro hcon
  apply hh
  rw [← hcon]
  rfl

lemma getReclaimViewAddress_recognized (cfg : String → NetworkConfig)
    (assetCategory assetType assetIdOrQuantity pledgeId pledgerCert sourceNetwork
      recipientCert destNetwork pledgeExpiryTimeSecs : String)
    (h1 : (cfg destNetwork).connProfilePath ≠ "")
    (h2 : (cfg destNetwork).channelName ≠ "")
    (h3 : (cfg destNetwork).chaincode ≠ "")
    (hcat : assetCategory = "bond" ∨ assetCategory = "token") :
    getReclaimViewAddress cfg assetCategory assetType assetIdOrQuantity pledgeId
        pledgerCert sourceNetwork recipientCert destNetwork pledgeExpiryTimeSecs =
      (some ((cfg destNetwork).relayEndpoint ++ "/" ++ destNetwork ++ "/" ++
        (cfg destNetwork).channelName ++ ":" ++ (cfg destNetwork).chaincode ++ ":" ++
        claimStatusFn assetCategory ++ ":" ++ pledgeId ++ ":" ++ assetType ++ ":" ++
        assetIdOrQuantity ++ ":" ++ recipientCert ++ ":" ++ pledgerCert ++ ":" ++
        sourceNetwork ++ ":" ++ pledgeExpiryTimeSecs), []) := by
  rcases hcat with hc | hc <;> subst hc <;>
    simp [getReclaimViewAddress, claimStatusFn, h1, h2, h3]

lemma claim_chain_ne_empty (r dn ch cc fn pid aty aq rc pc sn exp : String) :
    r ++ "/" ++ dn ++ "/" ++ ch ++ ":" ++ cc ++ ":" ++ fn ++ ":" ++ pid ++ ":" ++ aty ++
      ":" ++ aq ++ ":" ++ rc ++ ":" ++ pc ++ ":" ++ sn ++ ":" ++ exp ≠ "" := by
  intro he
  have hd := congrArg String.data he
  simp [String.data_append] at hd

lemma runMain_no_token_units_msg (ext : ExternalWorld) (opts : Options)
    (assetType assetIdOrQuantity : String) :
    Effect.printErr "num of units needs to be specified for \"token\" type" ∉
      runMain ext opts assetType assetIdOrQuantity := by
  have hsrcne : ("num of units needs to be specified for \"token\" type" : String) ≠
      ("Please use a valid --source-network. No valid environment found for " ++
        opts.sourceNetwork) ++ " " :=
    token_needs_msg_ne _ _ (data_append_ne_nil_left _ _ (by decide))
      (by rw [head_data_append _ _ (by decide)]; decide)
  have hdestne : ("num of units needs to be specified for \"token\" type" : String) ≠
      ("Please use a valid --dest-network. No valid environment found for " ++
        opts.destNetwork) ++ " " :=
    token_needs_msg_ne _ _ (data_append_ne_nil_left _ _ (by decide))
      (by rw [head_data_append _ _ (by decide)]; decide)
  have hkeyne : ("num of units needs to be specified for \"token\" type" : String) ≠
      "Error getting key and cert " ++ ext.keyCertErrMsg :=
    token_needs_msg_ne _ _ (by decide) (by decide)
  simp only [runMain]
  by_cases hsrc : (ext.cfg opts.sourceNetwork).connProfilePath = "" ∨
      (ext.cfg opts.sourceNetwork).channelName = "" ∨
      (ext.cfg opts.sourceNetwork).chaincode = ""
  · rw [if_pos hsrc]
    simp [hsrcne]
  · rw [if_neg hsrc]
    rcases builder_cases ext.cfg opts.type assetType assetIdOrQuantity opts.pledgeId
        ext.userCert opts.sourceNetwork ext.pledge.recipient ext.pledge.remoteNetworkId
        ext.pledge.expiryTimeSecs with ⟨s, hb⟩ | ⟨m, hb⟩
    · rw [hb]
      by_cases hs : s = ""
      · simp [hs, hdestne]
      · by_cases hkc : ext.keyCertOk = false
        · simp [hs, hkc, hkeyne]
        · by_cases hf : ext.flowOk <;> simp [hs, hkc, hf, hkeyne, hdestne]
    · rw [hb]
      simp

lemma parse_of_built_chain (re dn ch cc fn pid aty aq rc pc sn exp : String)
    (hre : delimFree re) (hdn : delimFree dn) (hch : delimFree ch) (hcc : delimFree cc)
    (hfn : delimFree fn) (hpid : delimFree pid) (haty : delimFree aty) (haq : delimFree aq)
    (hrc : delimFree rc) (hpc : delimFree pc) (hsn : delimFree sn) (hexp : delimFree exp) :
    parseReclaimViewAddress (re ++ "/" ++ dn ++ "/" ++ ch ++ ":" ++ cc ++ ":" ++ fn ++ ":" ++
      pid ++ ":" ++ aty ++ ":" ++ aq ++ ":" ++ rc ++ ":" ++ pc ++ ":" ++ sn ++ ":" ++ exp) =
    some ⟨re, dn, ch, cc, fn, pid, aty, aq, rc, pc, sn, exp⟩ := by
  have hsc : ('/' : Char) ≠ ':' := by decide
  have hdata : (re ++ "/" ++ dn ++ "/" ++ ch ++ ":" ++ cc ++ ":" ++ fn ++ ":" ++
      pid ++ ":" ++ aty ++ ":" ++ aq ++ ":" ++ rc ++ ":" ++ pc ++ ":" ++ sn ++ ":" ++ exp).data =
      re.data ++ '/' :: (dn.data ++ '/' :: (ch.data ++ ':' :: (cc.data ++ ':' ::
        (fn.data ++ ':' :: (pid.data ++ ':' :: (aty.data ++ ':' :: (aq.data ++ ':' ::
        (rc.data ++ ':' :: (pc.data ++ ':' :: (sn.data ++ ':' :: exp.data)))))))))) := by
    simp [String.data_append, data_slash, data_colon]
  have hslashREST : '/' ∉ (ch.data ++ ':' :: (cc.data ++ ':' ::
      (fn.data ++ ':' :: (pid.data ++ ':' :: (aty.data ++ ':' :: (aq.data ++ ':' ::
      (rc.data ++ ':' :: (pc.data ++ ':' :: (sn.data ++ ':' :: exp.data))))))))) := by
    simp [List.mem_append, List.mem_cons, hch.2, hcc.2, hfn.2, hpid.2, haty.2, haq.2,
      hrc.2, hpc.2, hsn.2, hexp.2, hsc]
  have hsplit1 : jsSplit '/' (re ++ "/" ++ dn ++ "/" ++ ch ++ ":" ++ cc ++ ":" ++ fn ++ ":" ++
      pid ++ ":" ++ aty ++ ":" ++ aq ++ ":" ++ rc ++ ":" ++ pc ++ ":" ++ sn ++ ":" ++ exp) =
      [re, dn, String.mk (ch.data ++ ':' :: (cc.data ++ ':' ::
        (fn.data ++ ':' :: (pid.data ++ ':' :: (aty.data ++ ':' :: (aq.data ++ ':' ::
        (rc.data ++ ':' :: (pc.data ++ ':' :: (sn.data ++ ':' :: exp.data)))))))))] := by
    simp only [jsSplit]
    rw [hdata, splitOn_sep '/' re.data _ hre.2, splitOn_sep '/' dn.data _ hdn.2,
      splitOn_single '/' _ hslashREST]
    simp [mk_data]
  have hsplit2 : jsSplit ':' (String.mk (ch.data ++ ':' :: (cc.data ++ ':' ::
      (fn.data ++ ':' :: (pid.data ++ ':' :: (aty.data ++ ':' :: (aq.data ++ ':' ::
      (rc.data ++ ':' :: (pc.data ++ ':' :: (sn.data ++ ':' :: exp.data)))))))))) =
      [ch, cc, fn, pid, aty, aq, rc, pc, sn, exp] := by
    simp only [jsSplit, data_mk]
    rw [splitOn_sep ':' ch.data _ hch.1, splitOn_sep ':' cc.data _ hcc.1,
      splitOn_sep ':' fn.data _ hfn.1, splitOn_sep ':' pid.data _ hpid.1,
      splitOn_sep ':' aty.data _ haty.1, splitOn_sep ':' aq.data _ haq.1,
      splitOn_sep ':' rc.data _ hrc.1, splitOn_sep ':' pc.data _ hpc.1,
      splitOn_sep ':' sn.data _ hsn.1, splitOn_single ':' exp.data hexp.1]
    simp [mk_data]
  simp only [parseReclaimViewAddress, hsplit1, hsplit2]

/-- C1: For every call to the claim-status address builder (with a resolvable
destination configuration, the precondition of spec section 4.1), the chaincode
function name placed in the address is selected by the asset category: `bond`
yields `GetAssetClaimStatus` and `token` yields `GetTokenAssetClaimStatus`;
for every other category the builder produces no address at all and its
effects are a console report of the unrecognized category followed by
`process.exit(1)`, so the flow is aborted fatally with no retry. -/
theorem C1_claim_status_function_selected_by_category
    (cfg : String → NetworkConfig)
    (assetCategory assetType assetIdOrQuantity pledgeId pledgerCert sourceNetwork
      recipientCert destNetwork pledgeExpiryTimeSecs : String)
    (hres : (cfg destNetwork).resolvable) :
    (assetCategory = "bond" →
      getReclaimViewAddress cfg assetCategory assetType assetIdOrQuantity pledgeId
        pledgerCert sourceNetwork recipientCert destNetwork pledgeExpiryTimeSecs =
      (some ((cfg destNetwork).relayEndpoint ++ "/" ++ destNetwork ++ "/" ++
        (cfg destNetwork).channelName ++ ":" ++ (cfg destNetwork).chaincode ++ ":" ++
        "GetAssetClaimStatus" ++ ":" ++ pledgeId ++ ":" ++ assetType ++ ":" ++
        assetIdOrQuantity ++ ":" ++ recipientCert ++ ":" ++ pledgerCert ++ ":" ++
        sourceNetwork ++ ":" ++ pledgeExpiryTimeSecs), [])) ∧
    (assetCategory = "token" →
      getReclaimViewAddress cfg assetCategory assetType assetIdOrQuantity pledgeId
        pledgerCert sourceNetwork recipientCert destNetwork pledgeExpiryTimeSecs =
      (some ((cfg destNetwork).relayEndpoint ++ "/" ++ destNetwork ++ "/" ++
        (cfg destNetwork).channelName ++ ":" ++ (cfg destNetwork).chaincode ++ ":" ++
        "GetTokenAssetClaimStatus" ++ ":" ++ pledgeId ++ ":" ++ assetType ++ ":" ++
        assetIdOrQuantity ++ ":" ++ recipientCert ++ ":" ++ pledgerCert ++ ":" ++
        sourceNetwork ++ ":" ++ pledgeExpiryTimeSecs), [])) ∧
    (assetCategory ≠ "bond" → assetCategory ≠ "token" →
      getReclaimViewAddress cfg assetCategory assetType assetIdOrQuantity pledgeId
        pledgerCert sourceNetwork recipientCert destNetwork pledgeExpiryTimeSecs =
      (none, [Effect.consoleLog ("Unecognized asset category: " ++ assetCategory),
              Effect.processExit 1])) := by
  obtain ⟨h1, h2, h3⟩ := hres
  refine ⟨?_, ?_, ?_⟩
  · intro hb
    subst hb
    simp [getReclaimViewAddress, h1, h2, h3]
  · intro ht
    subst ht
    simp [getReclaimViewAddress, h1, h2, h3]
  · intro hb ht
    simp [getReclaimViewAddress, h1, h2, h3, hb, ht]

end Reclaim

namespace Reclaim

/-- Witness for C1 at concrete inputs: `network2` resolves in `cfgSample`, a
`bond` call selects `GetAssetClaimStatus`, and the category `house` produces
no address and exits the process. -/
theorem C1_claim_status_function_selected_by_category_witness :
    (cfgSample "network2").resolvable ∧
    getReclaimViewAddress cfgSample "bond" "t" "a1" "pid1" "PC" "network1" "RC"
        "network2" "90000" =
      (some ((cfgSample "network2").relayEndpoint ++ "/" ++ "network2" ++ "/" ++
        (cfgSample "network2").channelName ++ ":" ++ (cfgSample "network2").chaincode ++ ":" ++
        "GetAssetClaimStatus" ++ ":" ++ "pid1" ++ ":" ++ "t" ++ ":" ++
        "a1" ++ ":" ++ "RC" ++ ":" ++ "PC" ++ ":" ++
        "network1" ++ ":" ++ "90000"), []) ∧
    getReclaimViewAddress cfgSample "house" "t" "a1" "pid1" "PC" "network1" "RC"
        "network2" "90000" =
      (none, [Effect.consoleLog ("Unecognized asset category: " ++ "house"),
              Effect.processExit 1]) := by
  refine ⟨by decide, ?_, ?_⟩
  · exact (C1_claim_status_function_selected_by_category cfgSample "bond" "t" "a1" "pid1"
      "PC" "network1" "RC" "network2" "90000" (by decide)).1 rfl
  · exact (C1_claim_status_function_selected_by_category cfgSample "house" "t" "a1" "pid1"
      "PC" "network1" "RC" "network2" "90000" (by decide)).2.2 (by decide) (by decide)

/-- C2: when the destination network's configuration (looked up for the
pledge record's remote network id) lacks a connection profile path, channel
name, or chaincode, the address builder returns the empty address, and the
command, on seeing the empty address, prints the invalid-destination-network
error and stops: the whole trace is exactly the debug prefix, the wallet
access, the local pledge-details lookup and that error, so the interop flow
(the only effect that contacts the relay or invokes the local ledger) never
occurs. -/
theorem C2_empty_address_aborts
    (ext : ExternalWorld) (opts : Options)
    (hhelp : opts.help = false)
    (hsn : opts.sourceNetwork ≠ "") (hu : opts.user ≠ "")
    (ht : opts.type ≠ "") (hp : opts.param ≠ "")
    (hp1 : param1Of opts.param ≠ "")
    (htok : ¬(opts.type = "token" ∧ parseIntJS (param1Of opts.param) = none))
    (hsrc : (ext.cfg opts.sourceNetwork).resolvable)
    (hdest : ¬ (ext.cfg ext.pledge.remoteNetworkId).resolvable) :
    (reclaimViewAddressResult ext opts).1 = some "" ∧
    run ext opts =
      (if opts.debug = "true" then [Effect.debugLog "Debugging is enabled"] else []) ++
      [Effect.walletAccess opts.user,
       Effect.pledgeLookup opts.sourceNetwork opts.pledgeId opts.user opts.type,
       Effect.printErr ("Please use a valid --dest-network. No valid environment found for " ++
         opts.destNetwork ++ " ")] ∧
    (run ext opts).all (fun e => !e.isNetworkCall) = true := by
  rw [NetworkConfig.resolvable, not_and_or, not_and_or, not_not, not_not, not_not] at hdest
  obtain ⟨s1, s2, s3⟩ := hsrc
  have hb : getReclaimViewAddress ext.cfg opts.type (assetTypeOf opts.param)
      (assetIdOrQuantityOf opts.type opts.param) opts.pledgeId ext.userCert
      opts.sourceNetwork ext.pledge.recipient ext.pledge.remoteNetworkId
      ext.pledge.expiryTimeSecs = (some "", []) := by
    simp only [getReclaimViewAddress]
    rw [if_pos hdest]
  have hrun : run ext opts =
      (if opts.debug = "true" then [Effect.debugLog "Debugging is enabled"] else []) ++
      [Effect.walletAccess opts.user,
       Effect.pledgeLookup opts.sourceNetwork opts.pledgeId opts.user opts.type,
       Effect.printErr ("Please use a valid --dest-network. No valid environment found for " ++
         opts.destNetwork ++ " ")] := by
    simp only [run, runMain, hhelp]
    simp [hsn, hu, ht, hp, hp1, htok, s1, s2, s3, hb]
  refine ⟨?_, hrun, ?_⟩
  · rw [reclaimViewAddressResult, hb]
  · rw [hrun]
    by_cases hdbg : opts.debug = "true"
    · simp [hdbg, Effect.isNetworkCall]
    · simp [hdbg, Effect.isNetworkCall]

/-- C3 amended: for category `token` the quantity segment of `--param` must
parse as an integer under JavaScript `parseInt` (the code checks only
`isNaN(parseInt(...))`, not positivity): a quantity with no leading digits is
rejected with the integer validation error before any external access, while
a quantity `parseInt` accepts proceeds into the main flow with the parsed
integer. A missing segment is rejected even earlier by the guard of
reclaim.ts line 119. -/
theorem C3_token_quantity_integer_check
    (ext : ExternalWorld) (opts : Options)
    (hhelp : opts.help = false) (hsn : opts.sourceNetwork ≠ "") (hu : opts.user ≠ "")
    (htype : opts.type = "token") (hp : opts.param ≠ "") (hp1 : param1Of opts.param ≠ "") :
    (parseIntJS (param1Of opts.param) = none →
      run ext opts =
        (if opts.debug = "true" then [Effect.debugLog "Debugging is enabled"] else []) ++
        [Effect.printErr "num of units must be an integer for \"token\" type"] ∧
      (run ext opts).all (fun e => !e.isExternalAccess) = true) ∧
    (∀ n : Int, parseIntJS (param1Of opts.param) = some n →
      run ext opts =
        (if opts.debug = "true" then [Effect.debugLog "Debugging is enabled"] else []) ++
        runMain ext opts (assetTypeOf opts.param) (toString n)) := by
  have ht : opts.type ≠ "" := by simp [htype]
  constructor
  · intro hnone
    have hrun : run ext opts =
        (if opts.debug = "true" then [Effect.debugLog "Debugging is enabled"] else []) ++
        [Effect.printErr "num of units must be an integer for \"token\" type"] := by
      simp [run, hhelp, hsn, hu, ht, hp, hp1, htype, hnone]
    refine ⟨hrun, ?_⟩
    rw [hrun]
    by_cases hdbg : opts.debug = "true" <;> simp [hdbg, Effect.isExternalAccess]
  · intro n hn
    simp [run, hhelp, hsn, hu, ht, hp, hp1, htype, hn, assetIdOrQuantityOf]

/-- C3 counterexample: the claim's requirement that the quantity parse as a
positive integer is not what the code enforces: `parseInt("0")` yields `0`,
which is not positive, yet the command with `--param token1:0` proceeds all
the way to the network call instead of failing input validation. -/
theorem C3_counterexample_nonpositive_quantity_not_rejected :
    parseIntJS "0" = some 0 ∧ ¬ ((0 : Int) > 0) ∧
    (run extSample { optsSample with param := "token1:0" }).any
      (fun e => e.isNetworkCall) = true := by
  refine ⟨rfl, by decide, ?_⟩
  decide

/-- Witness for the amended C3 at concrete inputs: `token1:abc` is rejected
with the integer validation error; `token1:50` proceeds with quantity 50. -/
theorem C3_token_quantity_integer_check_witness :
    run extSample { optsSample with param := "token1:abc" } =
      [Effect.printErr "num of units must be an integer for \"token\" type"] ∧
    run extSample optsSample = runMain extSample optsSample "token1" "50" := by
  constructor
  · have h := (C3_token_quantity_integer_check extSample
      { optsSample with param := "token1:abc" } rfl (by decide) (by decide) rfl (by decide)
      (by decide)).1 (by decide)
    simpa using h.1
  · have h := (C3_token_quantity_integer_check extSample optsSample rfl (by decide) (by decide)
      rfl (by decide) (by decide)).2 50 (by decide)
    simpa using h

/-- C4: For every resolvable destination network and recognized category, the
address produced by the builder is exactly
`<relayEndpoint>/<network>/<channel>:<contract>:<function>:<arg1>:...:<argN>`:
the relay endpoint, network and channel joined by slashes, then the contract,
selected function and the seven positional arguments joined by colons. The
argument values appear verbatim by plain concatenation (they are arbitrary
strings here, so in particular colons occurring inside them are not escaped). -/
theorem C4_address_string_format
    (cfg : String → NetworkConfig)
    (assetCategory assetType assetIdOrQuantity pledgeId pledgerCert sourceNetwork
      recipientCert destNetwork pledgeExpiryTimeSecs : String)
    (hres : (cfg destNetwork).resolvable)
    (hcat : assetCategory = "bond" ∨ assetCategory = "token") :
    (getReclaimViewAddress cfg assetCategory assetType assetIdOrQuantity pledgeId
        pledgerCert sourceNetwork recipientCert destNetwork pledgeExpiryTimeSecs).1 =
      some ((cfg destNetwork).relayEndpoint ++ "/" ++ destNetwork ++ "/" ++
        (cfg destNetwork).channelName ++ ":" ++ (cfg destNetwork).chaincode ++ ":" ++
        claimStatusFn assetCategory ++ ":" ++ pledgeId ++ ":" ++ assetType ++ ":" ++
        assetIdOrQuantity ++ ":" ++ recipientCert ++ ":" ++ pledgerCert ++ ":" ++
        sourceNetwork ++ ":" ++ pledgeExpiryTimeSecs) := by
  obtain ⟨h1, h2, h3⟩ := hres
  rcases hcat with hb | ht
  · subst hb
    simp [getReclaimViewAddress, claimStatusFn, h1, h2, h3]
  · subst ht
    simp [getReclaimViewAddress, claimStatusFn, h1, h2, h3]

/-- Witness for C4 at concrete inputs; the recipient certificate argument
`R:C` contains a colon and is embedded verbatim. -/
theorem C4_address_string_format_witness :
    (cfgSample "network2").resolvable ∧ ("token" = "bond" ∨ ("token" : String) = "token") ∧
    (getReclaimViewAddress cfgSample "token" "token1" "50" "pid1" "PC" "network1" "R:C"
        "network2" "90000").1 =
      some ((cfgSample "network2").relayEndpoint ++ "/" ++ "network2" ++ "/" ++
        (cfgSample "network2").channelName ++ ":" ++ (cfgSample "network2").chaincode ++ ":" ++
        claimStatusFn "token" ++ ":" ++ "pid1" ++ ":" ++ "token1" ++ ":" ++
        "50" ++ ":" ++ "R:C" ++ ":" ++ "PC" ++ ":" ++
        "network1" ++ ":" ++ "90000") :=
  ⟨by decide, Or.inr rfl,
    C4_address_string_format cfgSample "token" "token1" "50" "pid1" "PC" "network1" "R:C"
      "network2" "90000" (by decide) (Or.inr rfl)⟩

/-- C5: on the successful path, every reclaim run calls the interop flow
with the claim-status view address built for the destination network recorded
in the pledge record (function `GetAssetClaimStatus` for `bond`,
`GetTokenAssetClaimStatus` for `token`), and with local ledger function
`ReclaimTokenAsset` when the category is `token` and `ReclaimAsset`
otherwise, invoked on the source network's channel and chaincode through the
source network's relay endpoint. -/
theorem C5_reclaim_flow_builds_claim_status_and_invokes_reclaim
    (ext : ExternalWorld) (opts : Options)
    (hhelp : opts.help = false) (hsn : opts.sourceNetwork ≠ "") (hu : opts.user ≠ "")
    (hp : opts.param ≠ "") (hp1 : param1Of opts.param ≠ "")
    (htok : ¬(opts.type = "token" ∧ parseIntJS (param1Of opts.param) = none))
    (hcat : opts.type = "bond" ∨ opts.type = "token")
    (hsrc : (ext.cfg opts.sourceNetwork).resolvable)
    (hdest : (ext.cfg ext.pledge.remoteNetworkId).resolvable)
    (hkey : ext.keyCertOk = true) :
    Effect.interopFlow (ext.cfg opts.sourceNetwork).relayEndpoint
      ((ext.cfg ext.pledge.remoteNetworkId).relayEndpoint ++ "/" ++
        ext.pledge.remoteNetworkId ++ "/" ++
        (ext.cfg ext.pledge.remoteNetworkId).channelName ++ ":" ++
        (ext.cfg ext.pledge.remoteNetworkId).chaincode ++ ":" ++
        claimStatusFn opts.type ++ ":" ++ opts.pledgeId ++ ":" ++ assetTypeOf opts.param ++
        ":" ++ assetIdOrQuantityOf opts.type opts.param ++ ":" ++ ext.pledge.recipient ++
        ":" ++ ext.userCert ++ ":" ++ opts.sourceNetwork ++ ":" ++
        ext.pledge.expiryTimeSecs)
      (ext.cfg opts.sourceNetwork).channelName
      (if opts.type = "token" then "ReclaimTokenAsset" else "ReclaimAsset")
      (reclaimCcArgs ext opts)
      (ext.cfg opts.sourceNetwork).chaincode true ∈ run ext opts := by
  have ht : opts.type ≠ "" := by rcases hcat with h | h <;> simp [h]
  obtain ⟨s1, s2, s3⟩ := hsrc
  obtain ⟨d1, d2, d3⟩ := hdest
  have hb := getReclaimViewAddress_recognized ext.cfg opts.type (assetTypeOf opts.param)
    (assetIdOrQuantityOf opts.type opts.param) opts.pledgeId ext.userCert
    opts.sourceNetwork ext.pledge.recipient ext.pledge.remoteNetworkId
    ext.pledge.expiryTimeSecs d1 d2 d3 hcat
  have hne := claim_chain_ne_empty (ext.cfg ext.pledge.remoteNetworkId).relayEndpoint
    ext.pledge.remoteNetworkId (ext.cfg ext.pledge.remoteNetworkId).channelName
    (ext.cfg ext.pledge.remoteNetworkId).chaincode (claimStatusFn opts.type) opts.pledgeId
    (assetTypeOf opts.param) (assetIdOrQuantityOf opts.type opts.param)
    ext.pledge.recipient ext.userCert opts.sourceNetwork ext.pledge.expiryTimeSecs
  have hkc : ¬ (ext.keyCertOk = false) := by simp [hkey]
  by_cases hf : ext.flowOk <;>
    simp [run, runMain, hhelp, hsn, hu, ht, hp, hp1, htok, s1, s2, s3, hb, hne, hkc, hf]

/-- C6: parse after build is the identity. For every resolvable destination
configuration, recognized category and field values free of the address
scheme's delimiter characters, parsing the address string produced by the
builder returns exactly the original fields (with the function name the
builder selected for the category). -/
theorem C6_parse_after_build_is_identity
    (cfg : String → NetworkConfig)
    (assetCategory assetType assetIdOrQuantity pledgeId pledgerCert sourceNetwork
      recipientCert destNetwork pledgeExpiryTimeSecs : String)
    (hres : (cfg destNetwork).resolvable)
    (hcat : assetCategory = "bond" ∨ assetCategory = "token")
    (hre : delimFree (cfg destNetwork).relayEndpoint) (hdn : delimFree destNetwork)
    (hch : delimFree (cfg destNetwork).channelName)
    (hcc : delimFree (cfg destNetwork).chaincode)
    (hpid : delimFree pledgeId) (haty : delimFree assetType)
    (haq : delimFree assetIdOrQuantity) (hrc : delimFree recipientCert)
    (hpc : delimFree pledgerCert) (hsn : delimFree sourceNetwork)
    (hexp : delimFree pledgeExpiryTimeSecs) :
    ∀ s, (getReclaimViewAddress cfg assetCategory assetType assetIdOrQuantity pledgeId
        pledgerCert sourceNetwork recipientCert destNetwork pledgeExpiryTimeSecs).1 =
      some s →
      parseReclaimViewAddress s =
        some ⟨(cfg destNetwork).relayEndpoint, destNetwork, (cfg destNetwork).channelName,
          (cfg destNetwork).chaincode, claimStatusFn assetCategory, pledgeId, assetType,
          assetIdOrQuantity, recipientCert, pledgerCert, sourceNetwork,
          pledgeExpiryTimeSecs⟩ := by
  obtain ⟨h1, h2, h3⟩ := hres
  have hb := getReclaimViewAddress_recognized cfg assetCategory assetType assetIdOrQuantity
    pledgeId pledgerCert sourceNetwork recipientCert destNetwork pledgeExpiryTimeSecs
    h1 h2 h3 hcat
  intro s hs
  rw [hb] at hs
  simp only [Option.some.injEq] at hs
  have hfn : delimFree (claimStatusFn assetCategory) := by
    rcases hcat with hc | hc <;> subst hc <;> decide
  subst hs
  exact parse_of_built_chain (cfg destNetwork).relayEndpoint destNetwork
    (cfg destNetwork).channelName (cfg destNetwork).chaincode (claimStatusFn assetCategory)
    pledgeId assetType assetIdOrQuantity recipientCert pledgerCert sourceNetwork
    pledgeExpiryTimeSecs hre hdn hch hcc hfn hpid haty haq hrc hpc hsn hexp

/-- Witness for C6 at concrete inputs: the concrete built address parses
back to its constituent fields. -/
theorem C6_parse_after_build_is_identity_witness :
    (getReclaimViewAddress cfgSample "bond" "t" "a1" "pid1" "PC" "network1" "RC" "network2"
        "90000").1 =
      some "relay2/network2/mychannel2:simpleassettransfer:GetAssetClaimStatus:pid1:t:a1:RC:PC:network1:90000" ∧
    parseReclaimViewAddress
        "relay2/network2/mychannel2:simpleassettransfer:GetAssetClaimStatus:pid1:t:a1:RC:PC:network1:90000" =
      some ⟨"relay2", "network2", "mychannel2", "simpleassettransfer", "GetAssetClaimStatus",
        "pid1", "t", "a1", "RC", "PC", "network1", "90000"⟩ := by
  constructor
  · decide
  · have h := C6_parse_after_build_is_identity cfgSample "bond" "t" "a1" "pid1" "PC"
      "network1" "RC" "network2" "90000" (by decide) (Or.inl rfl) (by decide) (by decide)
      (by decide) (by decide) (by decide) (by decide) (by decide) (by decide) (by decide)
      (by decide) (by decide)
      "relay2/network2/mychannel2:simpleassettransfer:GetAssetClaimStatus:pid1:t:a1:RC:PC:network1:90000"
      (by decide)
    exact h

/-- C7 counterexample: the claim that the builder "performs no observable
effect (no output, no process termination) on any input" is false. At the
concrete input with category `house` (and a resolvable destination) the
builder writes to the console and terminates the process with exit code 1. -/
theorem C7_counterexample_builder_exits_process :
    (getReclaimViewAddress cfgSample "house" "t" "a1" "pid1" "PC" "network1" "RC"
        "network2" "90000").2 =
      [Effect.consoleLog "Unecognized asset category: house", Effect.processExit 1] ∧
    Effect.processExit 1 ∈
      (getReclaimViewAddress cfgSample "house" "t" "a1" "pid1" "PC" "network1" "RC"
        "network2" "90000").2 := by
  constructor
  · rfl
  · decide

/-- C7 amended: the builder is a deterministic pure function of its inputs
(equal arguments give equal results, effects included), and it performs no
observable effect whenever the asset category is recognized (`bond` or
`token`); for any other category with a resolvable destination configuration
it logs the unrecognized category and terminates the process. -/
theorem C7_builder_pure_for_recognized_categories
    (cfg : String → NetworkConfig)
    (assetCategory assetType assetIdOrQuantity pledgeId pledgerCert sourceNetwork
      recipientCert destNetwork pledgeExpiryTimeSecs : String) :
    getReclaimViewAddress cfg assetCategory assetType assetIdOrQuantity pledgeId
        pledgerCert sourceNetwork recipientCert destNetwork pledgeExpiryTimeSecs =
      getReclaimViewAddress cfg assetCategory assetType assetIdOrQuantity pledgeId
        pledgerCert sourceNetwork recipientCert destNetwork pledgeExpiryTimeSecs ∧
    ((assetCategory = "bond" ∨ assetCategory = "token") →
      (getReclaimViewAddress cfg assetCategory assetType assetIdOrQuantity pledgeId
        pledgerCert sourceNetwork recipientCert destNetwork pledgeExpiryTimeSecs).2 = []) ∧
    (assetCategory ≠ "bond" → assetCategory ≠ "token" → (cfg destNetwork).resolvable →
      (getReclaimViewAddress cfg assetCategory assetType assetIdOrQuantity pledgeId
        pledgerCert sourceNetwork recipientCert destNetwork pledgeExpiryTimeSecs).2 =
      [Effect.consoleLog ("Unecognized asset category: " ++ assetCategory),
       Effect.processExit 1]) := by
  refine ⟨rfl, ?_, ?_⟩
  · intro hcat
    rcases hcat with hb | ht
    · subst hb
      simp only [getReclaimViewAddress]
      split
      · rfl
      · rfl
    · subst ht
      simp only [getReclaimViewAddress]
      split
      · rfl
      · simp
  · intro hb ht hres
    obtain ⟨h1, h2, h3⟩ := hres
    simp [getReclaimViewAddress, h1, h2, h3, hb, ht]

/-- Witness for the amended C7 at concrete inputs: a recognized category has
an empty effect list, an unrecognized one logs and exits. -/
theorem C7_builder_pure_for_recognized_categories_witness :
    (getReclaimViewAddress cfgSample "bond" "t" "a1" "pid1" "PC" "network1" "RC"
        "network2" "90000").2 = [] ∧
    (getReclaimViewAddress cfgSample "house" "t" "a1" "pid1" "PC" "network1" "RC"
        "network2" "90000").2 =
      [Effect.consoleLog ("Unecognized asset category: " ++ "house"),
       Effect.processExit 1] :=
  ⟨(C7_builder_pure_for_recognized_categories cfgSample "bond" "t" "a1" "pid1" "PC"
      "network1" "RC" "network2" "90000").2.1 (Or.inl rfl),
   (C7_builder_pure_for_recognized_categories cfgSample "house" "t" "a1" "pid1" "PC"
      "network1" "RC" "network2" "90000").2.2 (by decide) (by decide) (by decide)⟩

/-- C8: when any of the required options `--source-network`, `--user`,
`--type`, `--param` is missing, the command prints one input-validation error
and returns; the trace contains no external access at all (no wallet access,
no pledge lookup, no key/cert fetch, and no interop flow, hence no relay
contact and no ledger invocation). -/
theorem C8_missing_required_arguments_abort_before_io
    (ext : ExternalWorld) (opts : Options)
    (hhelp : opts.help = false)
    (hmiss : opts.sourceNetwork = "" ∨ opts.user = "" ∨ opts.type = "" ∨ opts.param = "") :
    (∃ m, run ext opts =
      (if opts.debug = "true" then [Effect.debugLog "Debugging is enabled"] else []) ++
      [Effect.printErr m]) ∧
    (run ext opts).all (fun e => !e.isExternalAccess) = true := by
  have key : ∃ m, run ext opts =
      (if opts.debug = "true" then [Effect.debugLog "Debugging is enabled"] else []) ++
      [Effect.printErr m] := by
    by_cases h1 : opts.sourceNetwork = ""
    · exact ⟨"--source-network needs to be specified", by simp [run, hhelp, h1]⟩
    · by_cases h2 : opts.user = ""
      · exact ⟨"--user needs to be specified", by simp [run, hhelp, h1, h2]⟩
      · by_cases h3 : opts.type = ""
        · exact ⟨"--type of network needs to be specified", by simp [run, hhelp, h1, h2, h3]⟩
        · by_cases h4 : opts.param = ""
          · exact ⟨"--param needs to be specified", by simp [run, hhelp, h1, h2, h3, h4]⟩
          · rcases hmiss with h | h | h | h <;> contradiction
  obtain ⟨m, hm⟩ := key
  refine ⟨⟨m, hm⟩, ?_⟩
  rw [hm]
  by_cases hdbg : opts.debug = "true"
  · simp [hdbg, Effect.isExternalAccess]
  · simp [hdbg, Effect.isExternalAccess]

/-- C9: the message `num of units needs to be specified for "token" type`
is dead code: its guard (reclaim.ts line 124) is identical to the preceding
bond guard (line 119), so no input whatsoever produces it, and an invocation
with category `token` and a missing second `--param` segment is reported with
the bond-specific message instead. -/
theorem C9_token_units_message_unreachable :
    (∀ (ext : ExternalWorld) (opts : Options),
      Effect.printErr "num of units needs to be specified for \"token\" type" ∉ run ext opts) ∧
    (∀ (ext : ExternalWorld) (opts : Options),
      opts.help = false → opts.sourceNetwork ≠ "" → opts.user ≠ "" →
      opts.type = "token" → opts.param ≠ "" → param1Of opts.param = "" →
      run ext opts =
        (if opts.debug = "true" then [Effect.debugLog "Debugging is enabled"] else []) ++
        [Effect.printErr "assetId needs to be specified for \"bond\" type"]) := by
  constructor
  · intro ext opts
    by_cases hh : opts.help
    · simp [run, hh]
    · simp only [run]
      rw [if_neg hh]
      simp only [List.mem_append, not_or]
      refine ⟨?_, ?_⟩
      · by_cases hdbg : opts.debug = "true" <;> simp [hdbg]
      · split_ifs
        · decide
        · decide
        · decide
        · decide
        · decide
        · decide
        · exact runMain_no_token_units_msg ext opts _ _
  · intro ext opts hhelp hsn hu htype hp hp1
    have ht : opts.type ≠ "" := by simp [htype]
    simp [run, hhelp, hsn, hu, ht, hp, hp1, htype]

/-- C10: the destination network identifier, recipient certificate and pledge
expiry used for the claim-status view address come from the locally fetched
pledge record (`getRemotenetworkid()`, `getRecipient()`,
`getExpirytimesecs()`), the local invocation arguments take the recipient and
remote network from the same record, both are unchanged under any value of a
`--dest-network` option, and `--dest-network` is not among the options the
command declares. -/
theorem C10_destination_data_from_pledge_record
    (ext : ExternalWorld) (opts : Options) :
    (∀ d : String,
      reclaimViewAddressResult ext { opts with destNetwork := d } =
        reclaimViewAddressResult ext opts ∧
      reclaimCcArgs ext { opts with destNetwork := d } = reclaimCcArgs ext opts) ∧
    reclaimViewAddressResult ext opts =
      getReclaimViewAddress ext.cfg opts.type (assetTypeOf opts.param)
        (assetIdOrQuantityOf opts.type opts.param) opts.pledgeId ext.userCert
        opts.sourceNetwork ext.pledge.recipient ext.pledge.remoteNetworkId
        ext.pledge.expiryTimeSecs ∧
    reclaimCcArgs ext opts =
      [opts.pledgeId, ext.pledge.recipient, ext.pledge.remoteNetworkId, ""] ∧
    "--dest-network" ∉ declaredOptionNames :=
  ⟨fun _ => ⟨rfl, rfl⟩, rfl, rfl, by decide⟩

/-- Witness for C2 at concrete inputs: the pledge record of `extBadDest`
names `network3`, which has no configuration. -/
theorem C2_witness :
    (reclaimViewAddressResult extBadDest optsSample).1 = some "" ∧
    run extBadDest optsSample =
      (if optsSample.debug = "true" then [Effect.debugLog "Debugging is enabled"] else []) ++
      [Effect.walletAccess optsSample.user,
       Effect.pledgeLookup optsSample.sourceNetwork optsSample.pledgeId optsSample.user
         optsSample.type,
       Effect.printErr ("Please use a valid --dest-network. No valid environment found for " ++
         optsSample.destNetwork ++ " ")] ∧
    (run extBadDest optsSample).all (fun e => !e.isNetworkCall) = true :=
  C2_empty_address_aborts extBadDest optsSample rfl (by decide) (by decide) (by decide)
    (by decide) (by decide) (by decide) (by decide) (by decide)

/-- Witness for C8 at concrete inputs: a missing `--user`. -/
theorem C8_witness :
    (∃ m, run extSample { optsSample with user := "" } =
      (if ({ optsSample with user := "" } : Options).debug = "true"
        then [Effect.debugLog "Debugging is enabled"] else []) ++
      [Effect.printErr m]) ∧
    (run extSample { optsSample with user := "" }).all (fun e => !e.isExternalAccess) = true :=
  C8_missing_required_arguments_abort_before_io extSample { optsSample with user := "" }
    rfl (Or.inr (Or.inl rfl))

/-- Witness for C9 at concrete inputs: `--type token --param token1` (no
second segment) is reported with the bond message. -/
theorem C9_witness :
    Effect.printErr "num of units needs to be specified for \"token\" type" ∉
      run extSample { optsSample with param := "token1" } ∧
    run extSample { optsSample with param := "token1" } =
      (if ({ optsSample with param := "token1" } : Options).debug = "true"
        then [Effect.debugLog "Debugging is enabled"] else []) ++
      [Effect.printErr "assetId needs to be specified for \"bond\" type"] :=
  ⟨C9_token_units_message_unreachable.1 extSample { optsSample with param := "token1" },
   C9_token_units_message_unreachable.2 extSample { optsSample with param := "token1" }
     rfl (by decide) (by decide) rfl (by decide) (by decide)⟩

/-- Witness for C5 at concrete inputs: the sample token run. -/
theorem C5_witness :
    Effect.interopFlow (extSample.cfg optsSample.sourceNetwork).relayEndpoint
      ((extSample.cfg extSample.pledge.remoteNetworkId).relayEndpoint ++ "/" ++
        extSample.pledge.remoteNetworkId ++ "/" ++
        (extSample.cfg extSample.pledge.remoteNetworkId).channelName ++ ":" ++
        (extSample.cfg extSample.pledge.remoteNetworkId).chaincode ++ ":" ++
        claimStatusFn optsSample.type ++ ":" ++ optsSample.pledgeId ++ ":" ++
        assetTypeOf optsSample.param ++ ":" ++
        assetIdOrQuantityOf optsSample.type optsSample.param ++ ":" ++
        extSample.pledge.recipient ++ ":" ++ extSample.userCert ++ ":" ++
        optsSample.sourceNetwork ++ ":" ++ extSample.pledge.expiryTimeSecs)
      (extSample.cfg optsSample.sourceNetwork).channelName
      (if optsSample.type = "token" then "ReclaimTokenAsset" else "ReclaimAsset")
      (reclaimCcArgs extSample optsSample)
      (extSample.cfg optsSample.sourceNetwork).chaincode true ∈ run extSample optsSample :=
  C5_reclaim_flow_builds_claim_status_and_invokes_reclaim extSample optsSample rfl
    (by decide) (by decide) (by decide) (by decide) (by decide) (Or.inr rfl)
    (by decide) (by decide) rfl

end Reclaim
